import Mathlib

/-!
Verification of the XAUT trading bot core (src/trading_bot.py) against its
natural-language specification.  The numeric domain of the Python script
(floats) is embedded as `ℚ`; dictionaries become structures; `None` becomes
`Option`; the decision kinds keep their string names from the source.
-/

namespace TradingBot

/-- The indicator snapshot dictionary returned by `get_okx_data`
(src/trading_bot.py lines 119-129). -/
structure Tech where
  current_price : ℚ
  vwap : ℚ
  rsi : ℚ
  bb_upper : ℚ
  bb_lower : ℚ
  macd_hist : ℚ
  macd_signal : ℚ
  sma50 : ℚ
  volume : ℚ
deriving DecidableEq, Repr

/-- Number of `true` entries of a boolean list: Python `sum(cond)` over a
list of booleans. -/
def countTrue (l : List Bool) : ℕ := (l.filter id).length

/-- `buy_cond` of `trading_decision` (src/trading_bot.py lines 181-186). -/
def buy_cond (t : Tech) : List Bool :=
  [decide (t.current_price ≤ t.bb_lower) && decide (t.rsi < 35),
   decide (t.macd_hist > t.macd_signal),
   decide (t.volume > 20000),
   decide (t.current_price > t.vwap)]

/-- `sell_cond` of `trading_decision` (src/trading_bot.py lines 189-194). -/
def sell_cond (t : Tech) : List Bool :=
  [decide (t.current_price ≥ t.bb_upper) && decide (t.rsi > 65),
   decide (t.macd_hist < t.macd_signal),
   decide (t.volume > 20000),
   decide (t.current_price < t.vwap)]

/-- The six values returned by `trading_decision`: decision kind, entry,
take profit, stop loss, risk ratio, and the rationale trail.  The Python
code joins the rationale list with " | " only at the very end of the
function; we keep the list and expose the join separately. -/
structure DecisionOut where
  decision : String
  entry : Option ℚ
  tp : Option ℚ
  sl : Option ℚ
  rr : String
  logic : List String
deriving DecidableEq, Repr

/-- `trading_decision` (src/trading_bot.py lines 172-236).  The trailing
trend annotation (lines 230-234) is applied to every non-HOLD decision,
including the ERROR branch guard: in the source the ERROR branch returns
early, which the `match` on `none` reproduces. -/
def trading_decision (tech : Option Tech) (news_score : ℤ) : DecisionOut :=
  match tech with
  | none => ⟨"ERROR", none, none, none, "", ["No technical data"]⟩
  | some t =>
    let cp := t.current_price
    let base : DecisionOut :=
      if countTrue (buy_cond t) ≥ 3 then
        ⟨"BUY", some (cp * 0.9995),
         some (if news_score > 2 then cp * 1.005 else cp * 1.003),
         some (max t.bb_lower (cp * 0.998)),
         if news_score > 2 then "1:2.5" else "1:1.5",
         ["Technical buy signal"]⟩
      else if countTrue (sell_cond t) ≥ 3 then
        ⟨"SELL", some (cp * 1.0005),
         some (if news_score < -2 then cp * 0.995 else cp * 0.997),
         some (min t.bb_upper (cp * 1.002)),
         if news_score < -2 then "1:2.5" else "1:1.5",
         ["Technical sell signal"]⟩
      else if news_score ≥ 3 then
        ⟨"BUY", some cp, some (cp * 1.004), some (cp * 0.998), "1:2",
         ["No strong signal", "Strong bullish news"]⟩
      else if news_score ≤ -3 then
        ⟨"SELL", some cp, some (cp * 0.996), some (cp * 1.002), "1:2",
         ["No strong signal", "Strong bearish news"]⟩
      else
        ⟨"HOLD", none, none, none, "", ["No strong signal"]⟩
    if base.decision ≠ "HOLD" then
      { base with logic :=
          base.logic ++ [if cp > t.sma50 then "Bullish trend" else "Bearish trend"] }
    else base

/-- The Python builtin `round` applied to 2 decimal places on exact rationals: scale by 100,
round half to even, rescale. -/
def roundHalfEven (q : ℚ) : ℤ :=
  let f := ⌊q⌋
  let r := q - f
  if r < 1/2 then f
  else if r > 1/2 then f + 1
  else if Even f then f else f + 1

/-- `round(x, 2)` at the serialization boundary. -/
def round2 (q : ℚ) : ℚ := (roundHalfEven (q * 100) : ℚ) / 100

/-- `round(x, 2) if x else None` (src/trading_bot.py lines 262-264):
Python truthiness drops both `None` and an exact `0`. -/
def roundIfTruthy (x : Option ℚ) : Option ℚ :=
  match x with
  | none => none
  | some v => if v = 0 then none else some (round2 v)

/-- The `data` dictionary assembled in `main` for the spreadsheet row
(src/trading_bot.py lines 249-267), without the wall-clock timestamp. -/
structure Report where
  price : Option ℚ
  vwap : Option ℚ
  rsi : Option ℚ
  bb_upper : Option ℚ
  bb_lower : Option ℚ
  macd_hist : Option ℚ
  macd_signal : Option ℚ
  sma50 : Option ℚ
  volume : Option ℚ
  news_score : ℤ
  decision : String
  entry : Option ℚ
  take_profit : Option ℚ
  stop_loss : Option ℚ
  risk_ratio : String
  logic : String
deriving DecidableEq, Repr

/-- Building the `ReportRecord` in `main` (src/trading_bot.py lines 238-267). -/
def mkReport (tech : Option Tech) (news_score : ℤ) : Report :=
  let d := trading_decision tech news_score
  { price := tech.map Tech.current_price
    vwap := tech.map Tech.vwap
    rsi := tech.map Tech.rsi
    bb_upper := tech.map Tech.bb_upper
    bb_lower := tech.map Tech.bb_lower
    macd_hist := tech.map Tech.macd_hist
    macd_signal := tech.map Tech.macd_signal
    sma50 := tech.map Tech.sma50
    volume := tech.map Tech.volume
    news_score := news_score
    decision := d.decision
    entry := roundIfTruthy d.entry
    take_profit := roundIfTruthy d.tp
    stop_loss := roundIfTruthy d.sl
    risk_ratio := d.rr
    logic := String.intercalate " | " d.logic }

/-! ### Sentiment scorer (`analyze_news_sentiment`, lines 134-170) -/

/-- One RSS entry as the scorer sees it: a title, the polarity that the
external sentiment classifier assigns to the title (TextBlob, a
collaborator per the spec, so modelled as a per-item input in [-1,1]),
and an optional publish time in seconds since the epoch (`none` when the
entry lacks `published_parsed`). -/
structure NewsItem where
  title : String
  polarity : ℚ
  published : Option ℤ
deriving DecidableEq, Repr

/-- The fixed high-impact keyword list (src/trading_bot.py line 142). -/
def high_impact_kws : List String :=
  ["fed", "inflation", "rate", "interest", "war", "gold", "dollar"]

/-- Whether `needle` occurs as a contiguous run inside `hay`
(the Python membership test `kw in text`). -/
def containsSub (needle hay : List Char) : Bool :=
  match hay with
  | [] => needle.isEmpty
  | _ :: t => needle.isPrefixOf hay || containsSub needle t

/-- `any(kw in text.lower() for kw in high_impact_kws)`
(src/trading_bot.py line 162); the keyword literals are already lower
case in the source. -/
def hasHighImpactKw (title : String) : Bool :=
  high_impact_kws.any fun kw => containsSub kw.data (title.data.map Char.toLower)

/-- The contribution of one entry to `total_score` inside the loop of
`analyze_news_sentiment` (lines 144-165), at evaluation instant `now`
(seconds).  A `continue` in the source is a zero contribution here:
entries without a publish time, or published more than 24 hours
(86400 s) before `now`, add nothing. -/
def itemScore (now : ℤ) (it : NewsItem) : ℤ :=
  match it.published with
  | none => 0
  | some t =>
    if now - t > 86400 then 0
    else
      let score : ℤ :=
        if it.polarity > 0.1 then 1 else if it.polarity < -0.1 then -1 else 0
      if hasHighImpactKw it.title then score * 2 else score

/-- `analyze_news_sentiment` (src/trading_bot.py lines 134-167): the loop
`for entry in feed.entries[:10]` accumulating `total_score`. -/
def analyze_news_sentiment (now : ℤ) (entries : List NewsItem) : ℤ :=
  ((entries.take 10).map (itemScore now)).sum

/-! ### VWAP (`get_okx_data`, lines 98-101) -/

/-- One OHLCV candle, with `vol` the quote-currency volume column
(`vol_ccy_quote`) that the VWAP computation uses. -/
structure Candle where
  high : ℚ
  low : ℚ
  close : ℚ
  vol : ℚ
deriving DecidableEq, Repr

/-- The typical-price column `(high + low + close) / 3` (line 98). -/
def typical (c : Candle) : ℚ := (c.high + c.low + c.close) / 3

/-- Last value of the volume cumsum column: the total volume of the
supplied window (line 99). -/
def cumVol (cs : List Candle) : ℚ := (cs.map Candle.vol).sum

/-- Last value of the cumsum of typical price times volume (line 100). -/
def cumTpVol (cs : List Candle) : ℚ := (cs.map fun c => typical c * c.vol).sum

/-- The vwap quotient of the two cumsum columns at the last row
(line 101); the source never checks the divisor for zero. -/
def vwap (cs : List Candle) : ℚ := cumTpVol cs / cumVol cs

/-! ### MACD (`get_okx_data`, lines 112-114)

The `ta` library computes every EMA via
`series.ewm(span=w, adjust=False).mean()`: with `α = 2/(w+1)` the
recurrence is `y₀ = x₀`, `yₙ = α·xₙ + (1−α)·yₙ₋₁`.  The library masks the
first `w−1` outputs as NaN (warm-up); we model the recurrence itself,
which is what determines every defined value. -/

/-- The EMA recurrence after the first element: previous output `prev`,
smoothing factor `α`. -/
def emaFrom (α prev : ℚ) : List ℚ → List ℚ
  | [] => []
  | x :: xs =>
    let y := α * x + (1 - α) * prev
    y :: emaFrom α y xs

/-- Exponential moving average with span `w` and `adjust=False`. -/
def ema (w : ℕ) (xs : List ℚ) : List ℚ :=
  match xs with
  | [] => []
  | x :: rest => x :: emaFrom (2 / (w + 1)) x rest

/-- MACD line: fast EMA minus slow EMA of the closing prices. -/
def macd_line (fast slow : ℕ) (xs : List ℚ) : List ℚ :=
  List.zipWith (· - ·) (ema fast xs) (ema slow xs)

/-- MACD signal line: EMA of the MACD line over the signal window
(`macd.macd_signal()`, window_sign). -/
def macd_signal_line (fast slow sign : ℕ) (xs : List ℚ) : List ℚ :=
  ema sign (macd_line fast slow xs)

/-- MACD histogram `macd.macd_diff()`: MACD line minus signal line. -/
def macd_diff_line (fast slow sign : ℕ) (xs : List ℚ) : List ℚ :=
  List.zipWith (· - ·) (macd_line fast slow xs) (macd_signal_line fast slow sign xs)

/-- `.iloc[-1]` on a ℚ-valued series (last element, 0 when empty). -/
def lastQ (xs : List ℚ) : ℚ := xs.getLastD 0

/-! ### Concrete inputs used across the theorems -/

/-- Scenario A snapshot of the spec: all four BUY conditions hold. -/
def snapA : Tech := ⟨100, 99, 30, 110, 100, 1, 0, 95, 25000⟩

/-- A snapshot with `current_price = 0` that still fires the technical BUY
vote (price on the lower band, negative vwap): the engine then emits
`entry = 0`. -/
def snapZero : Tech := ⟨0, -1, 30, 10, 0, 1, 0, -1, 25000⟩

/-- A snapshot on which both condition vectors count 0 of 4: the technical
vote is HOLD. -/
def snapHold : Tech := ⟨100, 100, 50, 110, 90, 0, 0, 95, 10000⟩

/-- Scenario D headline with the polarity TextBlob assigns to it. -/
def fedItem : NewsItem := ⟨"Fed raises interest rate", 0.5, some 0⟩

/-! ### Theorems -/

/-- C4: for every NewsScore, an absent snapshot yields kind ERROR with all
price fields unset, empty risk ratio and the single reason
"No technical data", and a ReportRecord whose numeric indicator fields
are all null. -/
theorem C4_error_path (news : ℤ) :
    trading_decision none news =
      ⟨"ERROR", none, none, none, "", ["No technical data"]⟩ ∧
    mkReport none news =
      { price := none, vwap := none, rsi := none, bb_upper := none,
        bb_lower := none, macd_hist := none, macd_signal := none,
        sma50 := none, volume := none, news_score := news,
        decision := "ERROR", entry := none, take_profit := none,
        stop_loss := none, risk_ratio := "", logic := "No technical data" } :=
  ⟨rfl, rfl⟩

/-- C1: the technical vote is determined by the two 4-condition vectors:
at least 3 of the BUY vector yields BUY regardless of the SELL vector
(BUY is checked first, so it wins a simultaneous satisfaction); otherwise
at least 3 of the SELL vector yields SELL; otherwise the technical vote is
HOLD — visible as the leading rationale "No strong signal" for every
NewsScore, and as a final HOLD kind whenever no override fires. -/
theorem C1_technical_vote (t : Tech) (news : ℤ) :
    (countTrue (buy_cond t) ≥ 3 → (trading_decision (some t) news).decision = "BUY") ∧
    (countTrue (buy_cond t) < 3 → countTrue (sell_cond t) ≥ 3 →
      (trading_decision (some t) news).decision = "SELL") ∧
    (countTrue (buy_cond t) < 3 → countTrue (sell_cond t) < 3 →
      (trading_decision (some t) news).logic.head? = some "No strong signal") ∧
    (countTrue (buy_cond t) < 3 → countTrue (sell_cond t) < 3 →
      -3 < news → news < 3 → (trading_decision (some t) news).decision = "HOLD") := by
  refine ⟨?_, ?_, ?_, ?_⟩
  · intro hb
    simp [trading_decision, hb]
  · intro hb hs
    have hb2 : ¬ (countTrue (buy_cond t) ≥ 3) := by omega
    simp [trading_decision, hb2, hs]
  · intro hb hs
    have hb2 : ¬ (countTrue (buy_cond t) ≥ 3) := by omega
    have hs2 : ¬ (countTrue (sell_cond t) ≥ 3) := by omega
    by_cases h3 : news ≥ 3
    · simp [trading_decision, hb2, hs2, h3]
    · by_cases h4 : news ≤ -3
      · simp [trading_decision, hb2, hs2, h3, h4]
      · simp [trading_decision, hb2, hs2, h3, h4]
  · intro hb hs hlo hhi
    have hb2 : ¬ (countTrue (buy_cond t) ≥ 3) := by omega
    have hs2 : ¬ (countTrue (sell_cond t) ≥ 3) := by omega
    have h3 : ¬ (news ≥ 3) := by omega
    have h4 : ¬ (news ≤ -3) := by omega
    simp [trading_decision, h3, h4, hb2, hs2]

/-- Witness for C1 at concrete snapshots: Scenario A fires the BUY branch
and the all-quiet snapshot with neutral news stays HOLD. -/
theorem C1_technical_vote_witness :
    (trading_decision (some snapA) 0).decision = "BUY" ∧
    (trading_decision (some snapHold) 0).decision = "HOLD" :=
  ⟨(C1_technical_vote snapA 0).1 (by decide),
   (C1_technical_vote snapHold 0).2.2.2 (by decide) (by decide)
     (by decide) (by decide)⟩

/-- C2: on every technical BUY the pricing is entry = close × 0.9995,
stop loss = max(bb_lower, close × 0.998), take profit = close × 1.005 when
NewsScore > 2 else close × 1.003, risk ratio "1:2.5" when NewsScore > 2
else "1:1.5", with the rationale beginning "Technical buy signal"; and
Scenario A with NewsScore = 0 produces exactly the decision the spec
lists. -/
theorem C2_buy_pricing :
    (∀ (t : Tech) (news : ℤ), countTrue (buy_cond t) ≥ 3 →
      (trading_decision (some t) news).decision = "BUY" ∧
      (trading_decision (some t) news).entry = some (t.current_price * 0.9995) ∧
      (trading_decision (some t) news).sl =
        some (max t.bb_lower (t.current_price * 0.998)) ∧
      (trading_decision (some t) news).tp =
        some (if news > 2 then t.current_price * 1.005 else t.current_price * 1.003) ∧
      (trading_decision (some t) news).rr = (if news > 2 then "1:2.5" else "1:1.5") ∧
      (trading_decision (some t) news).logic.head? = some "Technical buy signal") ∧
    trading_decision (some snapA) 0 =
      ⟨"BUY", some 99.95, some 100.3, some 100, "1:1.5",
       ["Technical buy signal", "Bullish trend"]⟩ := by
  constructor
  · intro t news hb
    refine ⟨?_, ?_, ?_, ?_, ?_, ?_⟩ <;> simp [trading_decision, hb]
  · norm_num [trading_decision, snapA, buy_cond, sell_cond, countTrue]
    decide

/-- Witness for C2 at Scenario A: the universally quantified part applied
to the concrete snapshot. -/
theorem C2_buy_pricing_witness :
    (trading_decision (some snapA) 0).entry = some (snapA.current_price * 0.9995) ∧
    (trading_decision (some snapA) 0).sl =
      some (max snapA.bb_lower (snapA.current_price * 0.998)) :=
  ⟨(C2_buy_pricing.1 snapA 0 (by decide)).2.1,
   (C2_buy_pricing.1 snapA 0 (by decide)).2.2.1⟩

/-- C3: the sentiment override fires only in the HOLD path — never after
a technical BUY or SELL — and there NewsScore ≥ 3 promotes to BUY with
entry = close, stop loss = close × 0.998, take profit = close × 1.004 and
risk ratio "1:2", else NewsScore ≤ −3 promotes to SELL with the mirrored
prices; the two branches exclude each other, bullish first. -/
theorem C3_sentiment_override (t : Tech) (news : ℤ) :
    (countTrue (buy_cond t) ≥ 3 ∨ countTrue (sell_cond t) ≥ 3 →
      "Strong bullish news" ∉ (trading_decision (some t) news).logic ∧
      "Strong bearish news" ∉ (trading_decision (some t) news).logic) ∧
    (countTrue (buy_cond t) < 3 → countTrue (sell_cond t) < 3 → news ≥ 3 →
      (trading_decision (some t) news).decision = "BUY" ∧
      (trading_decision (some t) news).entry = some t.current_price ∧
      (trading_decision (some t) news).sl = some (t.current_price * 0.998) ∧
      (trading_decision (some t) news).tp = some (t.current_price * 1.004) ∧
      (trading_decision (some t) news).rr = "1:2" ∧
      "Strong bullish news" ∈ (trading_decision (some t) news).logic ∧
      "Strong bearish news" ∉ (trading_decision (some t) news).logic) ∧
    (countTrue (buy_cond t) < 3 → countTrue (sell_cond t) < 3 → news ≤ -3 →
      (trading_decision (some t) news).decision = "SELL" ∧
      (trading_decision (some t) news).entry = some t.current_price ∧
      (trading_decision (some t) news).sl = some (t.current_price * 1.002) ∧
      (trading_decision (some t) news).tp = some (t.current_price * 0.996) ∧
      (trading_decision (some t) news).rr = "1:2" ∧
      "Strong bearish news" ∈ (trading_decision (some t) news).logic ∧
      "Strong bullish news" ∉ (trading_decision (some t) news).logic) := by
  refine ⟨?_, ?_, ?_⟩
  · rintro (hb | hs)
    · constructor <;> · simp [trading_decision, hb]; split <;> simp
    · by_cases hb : countTrue (buy_cond t) ≥ 3
      · constructor <;> · simp [trading_decision, hb]; split <;> simp
      · constructor <;> · simp [trading_decision, hb, hs]; split <;> simp
  · intro hb hs h3
    have hb2 : ¬ (countTrue (buy_cond t) ≥ 3) := by omega
    have hs2 : ¬ (countTrue (sell_cond t) ≥ 3) := by omega
    refine ⟨?_, ?_, ?_, ?_, ?_, ?_, ?_⟩ <;>
      · simp [trading_decision, hb2, hs2, h3]
        try (split <;> simp)
  · intro hb hs h3
    have hb2 : ¬ (countTrue (buy_cond t) ≥ 3) := by omega
    have hs2 : ¬ (countTrue (sell_cond t) ≥ 3) := by omega
    have h4 : ¬ (news ≥ 3) := by omega
    refine ⟨?_, ?_, ?_, ?_, ?_, ?_, ?_⟩ <;>
      · simp [trading_decision, hb2, hs2, h3, h4]
        try (split <;> simp)

/-- Witness for C3: the quiet snapshot with NewsScore 3 is promoted to
BUY by the override, and Scenario A never carries an override reason. -/
theorem C3_sentiment_override_witness :
    (trading_decision (some snapHold) 3).decision = "BUY" ∧
    "Strong bullish news" ∈ (trading_decision (some snapHold) 3).logic ∧
    "Strong bullish news" ∉ (trading_decision (some snapA) 0).logic :=
  ⟨((C3_sentiment_override snapHold 3).2.1 (by decide) (by decide) (by decide)).1,
   ((C3_sentiment_override snapHold 3).2.1 (by decide) (by decide) (by decide)).2.2.2.2.2.1,
   ((C3_sentiment_override snapA 0).1 (Or.inl (by decide))).1⟩

/-- C5: the NewsScore sums per-item scores over only the first 10 items;
an item lacking a publish time, or published more than 24 hours before
the evaluation instant, contributes nothing; an in-window item scores
+1 / −1 / 0 by title polarity against the ±0.1 thresholds, doubled when
the lowered title contains a high-impact keyword; and the Scenario D
headline "Fed raises interest rate" with polarity 0.5 yields
NewsScore 2. -/
theorem C5_sentiment_scoring :
    (∀ (now : ℤ) (entries : List NewsItem),
      analyze_news_sentiment now entries = analyze_news_sentiment now (entries.take 10)) ∧
    (∀ (now : ℤ) (it : NewsItem), it.published = none → itemScore now it = 0) ∧
    (∀ (now : ℤ) (it : NewsItem) (t : ℤ), it.published = some t → now - t > 86400 →
      itemScore now it = 0) ∧
    (∀ (now : ℤ) (it : NewsItem) (t : ℤ), it.published = some t → ¬ (now - t > 86400) →
      itemScore now it =
        (if hasHighImpactKw it.title
         then (if it.polarity > 0.1 then 1 else if it.polarity < -0.1 then -1 else (0:ℤ)) * 2
         else (if it.polarity > 0.1 then 1 else if it.polarity < -0.1 then -1 else (0:ℤ)))) ∧
    analyze_news_sentiment 0 [fedItem] = 2 := by
  refine ⟨?_, ?_, ?_, ?_, ?_⟩
  · intro now entries
    simp [analyze_news_sentiment, List.take_take]
  · intro now it h
    simp [itemScore, h]
  · intro now it t hp hlate
    simp [itemScore, hp, hlate]
  · intro now it t hp hin
    simp [itemScore, hp, hin]
  · have hkw : hasHighImpactKw "Fed raises interest rate" = true := by decide
    have hp : ((0.1 : ℚ) < 0.5) := by norm_num
    simp [analyze_news_sentiment, fedItem, itemScore, hkw, hp]

/-- Witness for C5: a stale item (published 100000 s before evaluation)
contributes 0, by the third conjunct at a concrete input. -/
theorem C5_sentiment_scoring_witness :
    itemScore 100000 ⟨"gold steady", 0, some 0⟩ = 0 :=
  C5_sentiment_scoring.2.2.1 100000 ⟨"gold steady", 0, some 0⟩ 0 rfl (by decide)

/-- With smoothing factor 1 the EMA recurrence copies its input. -/
theorem emaFrom_one (xs : List ℚ) : ∀ prev, emaFrom 1 prev xs = xs := by
  induction xs with
  | nil => intro prev; rfl
  | cons x t ih =>
    intro prev
    simp only [emaFrom]
    have hx : 1 * x + (1 - 1) * prev = x := by ring
    rw [hx, ih]

/-- An EMA over a window of 1 is the identity. -/
theorem ema_one (xs : List ℚ) : ema 1 xs = xs := by
  cases xs with
  | nil => rfl
  | cons x t =>
    simp only [ema]
    have hα : (2 : ℚ) / ((1 : ℕ) + 1) = 1 := by norm_num
    rw [hα, emaFrom_one]

/-- Pointwise subtraction of a list from itself is the zero list. -/
theorem zipWith_sub_self (l : List ℚ) :
    List.zipWith (· - ·) l l = l.map (fun _ => 0) := by
  induction l with
  | nil => rfl
  | cons x t ih => simp [List.zipWith, ih]

/-- The last element of an all-zero series is 0. -/
theorem lastQ_map_zero (l : List ℚ) : lastQ (l.map fun _ => (0:ℚ)) = 0 := by
  induction l with
  | nil => rfl
  | cons x t ih =>
    simp only [List.map_cons, lastQ, List.getLastD_cons] at ih ⊢
    exact ih

/-- C6: under the default MACD parameters (fast 5, slow 13, signal 1) the
signal line equals the MACD line for every price series, the histogram is
identically zero, and hence the BUY condition macd_hist > macd_signal is
equivalent to macd_signal < 0 while the SELL condition
macd_hist < macd_signal is equivalent to macd_signal > 0. -/
theorem C6_macd_degenerate (xs : List ℚ) :
    macd_signal_line 5 13 1 xs = macd_line 5 13 xs ∧
    macd_diff_line 5 13 1 xs = (macd_line 5 13 xs).map (fun _ => 0) ∧
    (lastQ (macd_diff_line 5 13 1 xs) > lastQ (macd_signal_line 5 13 1 xs) ↔
      lastQ (macd_signal_line 5 13 1 xs) < 0) ∧
    (lastQ (macd_diff_line 5 13 1 xs) < lastQ (macd_signal_line 5 13 1 xs) ↔
      lastQ (macd_signal_line 5 13 1 xs) > 0) := by
  have hsig : macd_signal_line 5 13 1 xs = macd_line 5 13 xs := ema_one _
  have hdiff : macd_diff_line 5 13 1 xs = (macd_line 5 13 xs).map (fun _ => 0) := by
    unfold macd_diff_line
    rw [hsig]
    exact zipWith_sub_self _
  have hzero : lastQ (macd_diff_line 5 13 1 xs) = 0 := by
    rw [hdiff]; exact lastQ_map_zero _
  refine ⟨hsig, hdiff, ?_, ?_⟩ <;> rw [hzero]

/-- C7 counterexample: on the zero-price band-touch snapshot the engine
emits a BUY with entry exactly 0, yet the serialized record holds null
for entry rather than the rounded 0.00 — the Python guard
`round(entry, 2) if entry else None` treats the number 0 as absent. -/
theorem C7_rounding_counterexample :
    (trading_decision (some snapZero) 0).decision = "BUY" ∧
    (trading_decision (some snapZero) 0).entry = some 0 ∧
    (mkReport (some snapZero) 0).entry ≠ some (round2 0) ∧
    (mkReport (some snapZero) 0).entry = none := by
  have hb : countTrue (buy_cond snapZero) ≥ 3 := by decide
  refine ⟨?_, ?_, ?_, ?_⟩
  · simp [trading_decision, hb]
  · simp [trading_decision, hb]
    norm_num [snapZero]
  · simp [mkReport, roundIfTruthy, trading_decision, hb]
    norm_num [snapZero]
  · simp [mkReport, roundIfTruthy, trading_decision, hb]
    norm_num [snapZero]

/-- C7 amended: rounding to 2 decimal places happens only at the
serialization boundary and each monetary field of the ReportRecord equals
the engine value rounded to 2 decimals whenever that value is present and
nonzero; an absent engine value stays null, and an engine value of
exactly 0 is also serialized as null (Python truthiness), not as 0.00. -/
theorem C7_rounding_amended (tech : Option Tech) (news : ℤ) :
    ((trading_decision tech news).entry = none → (mkReport tech news).entry = none) ∧
    (∀ v : ℚ, (trading_decision tech news).entry = some v → v ≠ 0 →
      (mkReport tech news).entry = some (round2 v)) ∧
    ((trading_decision tech news).entry = some 0 → (mkReport tech news).entry = none) ∧
    ((trading_decision tech news).tp = none → (mkReport tech news).take_profit = none) ∧
    (∀ v : ℚ, (trading_decision tech news).tp = some v → v ≠ 0 →
      (mkReport tech news).take_profit = some (round2 v)) ∧
    ((trading_decision tech news).tp = some 0 → (mkReport tech news).take_profit = none) ∧
    ((trading_decision tech news).sl = none → (mkReport tech news).stop_loss = none) ∧
    (∀ v : ℚ, (trading_decision tech news).sl = some v → v ≠ 0 →
      (mkReport tech news).stop_loss = some (round2 v)) ∧
    ((trading_decision tech news).sl = some 0 → (mkReport tech news).stop_loss = none) := by
  refine ⟨?_, ?_, ?_, ?_, ?_, ?_, ?_, ?_, ?_⟩ <;>
    first
    | (intro h; simp [mkReport, roundIfTruthy, h])
    | (intro v hv hnz; simp [mkReport, roundIfTruthy, hv, hnz])

/-- Witness for the amended C7 at Scenario A: the serialized entry is the
rounding of the full-precision engine entry. -/
theorem C7_rounding_amended_witness :
    (mkReport (some snapA) 0).entry = some (round2 (snapA.current_price * 0.9995)) := by
  have he : (trading_decision (some snapA) 0).entry = some (snapA.current_price * 0.9995) := by
    have hb : countTrue (buy_cond snapA) ≥ 3 := by decide
    simp [trading_decision, hb]
  exact (C7_rounding_amended (some snapA) 0).2.1 _ he (by norm_num [snapA])

/-- C8: VWAP on a single-candle series equals that candle typical price
(high+low+close)/3 whenever its volume is nonzero, and in general VWAP
times the cumulative volume recovers the cumulative typical-price volume
sum — VWAP is exactly Σ(typical × volume) / Σ(volume) over the whole
supplied window. -/
theorem C8_vwap_typical :
    (∀ c : Candle, c.vol ≠ 0 → vwap [c] = typical c) ∧
    (∀ cs : List Candle, cumVol cs ≠ 0 → vwap cs * cumVol cs = cumTpVol cs) := by
  constructor
  · intro c h
    simp only [vwap, cumVol, cumTpVol, List.map_cons, List.map_nil,
      List.sum_cons, List.sum_nil, add_zero]
    exact mul_div_cancel_right₀ _ h
  · intro cs h
    simp only [vwap]
    exact div_mul_cancel₀ _ h

/-- Witness for C8 at a concrete candle: high 12, low 8, close 10,
volume 5 — VWAP is the typical price 10. -/
theorem C8_vwap_typical_witness : vwap [⟨12, 8, 10, 5⟩] = typical ⟨12, 8, 10, 5⟩ :=
  C8_vwap_typical.1 ⟨12, 8, 10, 5⟩ (by norm_num)

/-- Every item contributes a score in [−2, 2]. -/
theorem itemScore_bound (now : ℤ) (it : NewsItem) :
    -2 ≤ itemScore now it ∧ itemScore now it ≤ 2 := by
  cases hp : it.published with
  | none => simp [itemScore, hp]
  | some t =>
    simp only [itemScore, hp]
    split_ifs <;> omega

/-- The summed scores of a list of items are bounded by ±2 times its
length. -/
theorem newsSum_bound (now : ℤ) (l : List NewsItem) :
    -(2 * (l.length : ℤ)) ≤ (l.map (itemScore now)).sum ∧
    (l.map (itemScore now)).sum ≤ 2 * (l.length : ℤ) := by
  induction l with
  | nil => simp
  | cons x t ih =>
    have hx := itemScore_bound now x
    simp only [List.map_cons, List.sum_cons, List.length_cons]
    push_cast
    constructor
    · linarith [ih.1, hx.1]
    · linarith [ih.2, hx.2]

/-- C9: the NewsScore is always between −20 and 20: at most 10 items are
considered and each contributes a score in {−2, −1, 0, 1, 2}. -/
theorem C9_news_score_bounded (now : ℤ) (entries : List NewsItem) :
    -20 ≤ analyze_news_sentiment now entries ∧
    analyze_news_sentiment now entries ≤ 20 := by
  have h := newsSum_bound now (entries.take 10)
  have hlen : ((entries.take 10).length : ℤ) ≤ 10 := by
    have hn : (entries.take 10).length ≤ 10 := by
      rw [List.length_take]; omega
    exact_mod_cast hn
  unfold analyze_news_sentiment
  constructor
  · linarith [h.1]
  · linarith [h.2]

/-- C10 (implicit): on every band-touch technical BUY with positive price
(close ≤ bb_lower with rsi < 35 among at least three satisfied BUY
conditions), the returned stop loss max(bb_lower, close × 0.998) lies
strictly above the returned entry close × 0.9995. -/
theorem C10_stop_above_entry (t : Tech) (news : ℤ)
    (hcp : 0 < t.current_price)
    (hb : countTrue (buy_cond t) ≥ 3)
    (hband : t.current_price ≤ t.bb_lower)
    (_hrsi : t.rsi < 35) :
    (trading_decision (some t) news).entry = some (t.current_price * 0.9995) ∧
    (trading_decision (some t) news).sl =
      some (max t.bb_lower (t.current_price * 0.998)) ∧
    t.current_price * 0.9995 < max t.bb_lower (t.current_price * 0.998) := by
  refine ⟨?_, ?_, ?_⟩
  · simp [trading_decision, hb]
  · simp [trading_decision, hb]
  · have h1 : t.current_price * 0.9995 < t.current_price := by linarith
    exact lt_of_lt_of_le (lt_of_lt_of_le h1 hband) (le_max_left _ _)

/-- Witness for C10 at Scenario A: stop loss 100 above entry 99.95. -/
theorem C10_stop_above_entry_witness :
    (trading_decision (some snapA) 0).entry = some (snapA.current_price * 0.9995) ∧
    (trading_decision (some snapA) 0).sl =
      some (max snapA.bb_lower (snapA.current_price * 0.998)) ∧
    snapA.current_price * 0.9995 < max snapA.bb_lower (snapA.current_price * 0.998) :=
  C10_stop_above_entry snapA 0 (by norm_num [snapA]) (by decide)
    (by norm_num [snapA]) (by norm_num [snapA])

end TradingBot
